import Mathlib

/-!
Verification development for a repository holding two small Python
applications: an airline pricing chatbot (src/airline.py) and a FastAPI
security-analyzer backend (src/backend/server.py, src/backend/context.py,
src/backend/mcp_servers.py).

The Python code is shallowly embedded below.  Pure functions become Lean
functions; the SQLite prices table becomes an explicit association list with
insert-or-ignore semantics; the environment, the delegated agent call and the
storage layer become explicit parameters; fallible code returns Except.
-/

/-- A Python float value, modelled as an exact (not necessarily reduced)
fraction num / den with den positive.  Every float value the theorems below
evaluate is exactly representable as an IEEE-754 double, and its decimal
rendering coincides with the Python float repr, so no rounding step is
modelled. -/
structure PyFloat where
  num : Int
  den : Nat
deriving DecidableEq

/-- Float addition. -/
def PyFloat.add (a b : PyFloat) : PyFloat :=
  { num := a.num * (b.den : Int) + b.num * (a.den : Int), den := a.den * b.den }

/-- Float subtraction. -/
def PyFloat.sub (a b : PyFloat) : PyFloat :=
  { num := a.num * (b.den : Int) - b.num * (a.den : Int), den := a.den * b.den }

/-- Float multiplication. -/
def PyFloat.mul (a b : PyFloat) : PyFloat :=
  { num := a.num * b.num, den := a.den * b.den }

/-- Float negation. -/
def PyFloat.neg (a : PyFloat) : PyFloat :=
  { num := -a.num, den := a.den }

/-- Whether the value is zero. -/
def PyFloat.isZero (a : PyFloat) : Bool :=
  a.num == 0

/-- Float division, keeping the denominator positive; the caller rules out
division by zero. -/
def PyFloat.div (a b : PyFloat) : PyFloat :=
  if b.num < 0 then { num := -(a.num * (b.den : Int)), den := a.den * b.num.natAbs }
  else { num := a.num * (b.den : Int), den := a.den * b.num.natAbs }

/-- The float value of an integer. -/
def PyFloat.ofInt (i : Int) : PyFloat :=
  { num := i, den := 1 }

/-- Embedding of the Python str.lower method: lower-case every character.
Python lowers the full Unicode range; the inputs of interest are ASCII,
where Char.toLower agrees with it. -/
def pyLower (s : String) : String :=
  String.mk (s.data.map Char.toLower)

/-- Embedding of the Python str.strip method with no arguments: drop
leading and trailing whitespace (the inputs of interest are ASCII, where
Char.isWhitespace agrees with Python). -/
def pyStrip (s : String) : String :=
  String.mk (((s.data.dropWhile Char.isWhitespace).reverse.dropWhile Char.isWhitespace).reverse)

namespace Airline

/-- A Python numeric value as produced by evaluating an arithmetic
expression: either an int or a float. -/
inductive PyNum where
  | int : Int → PyNum
  | float : PyFloat → PyNum
deriving DecidableEq

/-- The float carrying the value of a PyNum. -/
def PyNum.toFloat : PyNum → PyFloat
  | PyNum.int i => PyFloat.ofInt i
  | PyNum.float q => q

/-- Python addition: int + int stays int, anything involving a float is a
float. -/
def pyAdd (a b : PyNum) : PyNum :=
  match a, b with
  | PyNum.int x, PyNum.int y => PyNum.int (x + y)
  | _, _ => PyNum.float (a.toFloat.add b.toFloat)

/-- Python subtraction, with the same int/float promotion as pyAdd. -/
def pySub (a b : PyNum) : PyNum :=
  match a, b with
  | PyNum.int x, PyNum.int y => PyNum.int (x - y)
  | _, _ => PyNum.float (a.toFloat.sub b.toFloat)

/-- Python multiplication, with the same int/float promotion as pyAdd. -/
def pyMul (a b : PyNum) : PyNum :=
  match a, b with
  | PyNum.int x, PyNum.int y => PyNum.int (x * y)
  | _, _ => PyNum.float (a.toFloat.mul b.toFloat)

/-- Python unary minus. -/
def pyNeg : PyNum → PyNum
  | PyNum.int x => PyNum.int (-x)
  | PyNum.float q => PyNum.float q.neg

/-- Python true division: always yields a float; division by zero raises,
which the embedding models as an error value. -/
def pyDiv (a b : PyNum) : Except String PyNum :=
  if b.toFloat.isZero then Except.error "ZeroDivisionError: division by zero"
  else Except.ok (PyNum.float (a.toFloat.div b.toFloat))

/-- Smallest exponent k (searched up to 64) with den dividing 10 ^ k, used
to render a float in decimal notation. -/
def pow10Exp (den : Nat) : Option Nat :=
  (List.range 64).find? (fun k => 10 ^ k % den = 0)

/-- Digits of m, zero-padded on the left to k digits. -/
def natPad (m k : Nat) : List Char :=
  let ds := (toString m).data
  List.replicate (k - ds.length) '0' ++ ds

/-- Drop trailing zero characters. -/
def stripTrailingZeros (s : List Char) : List Char :=
  (s.reverse.dropWhile (fun c => c = '0')).reverse

/-- Decimal rendering of a float, matching the Python float repr on values
whose denominator divides a power of ten (all values the theorems touch);
integral floats render with a trailing ".0" exactly as Python prints them.
Values outside that range fall back to a fraction rendering, which no
theorem below relies on. -/
def floatRepr (q : PyFloat) : String :=
  let sign := if q.num < 0 then "-" else ""
  let n := q.num.natAbs
  let d := q.den
  match pow10Exp d with
  | some k =>
    let m := n * (10 ^ k / d)
    let ip := m / 10 ^ k
    let fr := m % 10 ^ k
    let frDigits := stripTrailingZeros (natPad fr k)
    let frStr := if frDigits.isEmpty then "0" else String.mk frDigits
    sign ++ toString ip ++ "." ++ frStr
  | none => sign ++ toString n ++ "/" ++ toString d

/-- Python str of a numeric value: ints print without a decimal point,
floats with one. -/
def PyNum.str : PyNum → String
  | PyNum.int i => toString i
  | PyNum.float q => floatRepr q

/-- Tokens of the arithmetic fragment of Python expressions accepted by
the calculate tool. -/
inductive Tok where
  | num : PyNum → Tok
  | plus : Tok
  | minus : Tok
  | star : Tok
  | slash : Tok
  | lparen : Tok
  | rparen : Tok
deriving DecidableEq

/-- Value of a list of decimal digit characters. -/
def digitsToNat (ds : List Char) : Nat :=
  ds.foldl (fun a c => a * 10 + (c.toNat - 48)) 0

/-- Decimal literal ip.frac with k fractional digits, as a float. -/
def mkDecimal (ip f k : Nat) : PyFloat :=
  { num := (ip * 10 ^ k + f : Nat), den := 10 ^ k }

/-- Prepend a token to a tokenizer result. -/
def consTok (t : Tok) (r : Except String (List Tok)) : Except String (List Tok) :=
  match r with
  | Except.ok ts => Except.ok (t :: ts)
  | Except.error e => Except.error e

/-- Tokenizer for the arithmetic fragment: integer and decimal literals,
the four operators, parentheses, whitespace.  Any other character is a
syntax error, matching the scope the spec gives the evaluator (only
arithmetic syntax accepted).  Fuel is the character count. -/
def tokenizeAux (fuel : Nat) (cs : List Char) : Except String (List Tok) :=
  match fuel with
  | 0 => Except.error "SyntaxError: invalid syntax"
  | fuel + 1 =>
    match cs with
    | [] => Except.ok []
    | c :: rest =>
      if c.isWhitespace then tokenizeAux fuel rest
      else if c = '+' then consTok Tok.plus (tokenizeAux fuel rest)
      else if c = '-' then consTok Tok.minus (tokenizeAux fuel rest)
      else if c = '*' then consTok Tok.star (tokenizeAux fuel rest)
      else if c = '/' then consTok Tok.slash (tokenizeAux fuel rest)
      else if c = '(' then consTok Tok.lparen (tokenizeAux fuel rest)
      else if c = ')' then consTok Tok.rparen (tokenizeAux fuel rest)
      else if c.isDigit then
        let ds := List.takeWhile Char.isDigit cs
        let rest1 := List.dropWhile Char.isDigit cs
        match rest1 with
        | '.' :: cs2 =>
          let fs := List.takeWhile Char.isDigit cs2
          let rest2 := List.dropWhile Char.isDigit cs2
          consTok (Tok.num (PyNum.float (mkDecimal (digitsToNat ds) (digitsToNat fs) fs.length)))
            (tokenizeAux fuel rest2)
        | _ => consTok (Tok.num (PyNum.int (digitsToNat ds))) (tokenizeAux fuel rest1)
      else Except.error "SyntaxError: invalid character"

/-- Tokenize an expression string. -/
def tokenize (s : String) : Except String (List Tok) :=
  tokenizeAux (s.length + 1) s.data

mutual

/-- Atom of the expression grammar: a literal, a parenthesised expression
or a sign-prefixed atom. -/
def parseAtom (fuel : Nat) (ts : List Tok) : Except String (PyNum × List Tok) :=
  match fuel, ts with
  | 0, _ => Except.error "SyntaxError: invalid syntax"
  | _ + 1, Tok.num n :: rest => Except.ok (n, rest)
  | fuel + 1, Tok.lparen :: rest =>
    match parseExpr fuel rest with
    | Except.ok (v, Tok.rparen :: rest2) => Except.ok (v, rest2)
    | Except.ok _ => Except.error "SyntaxError: invalid syntax"
    | Except.error e => Except.error e
  | fuel + 1, Tok.minus :: rest =>
    match parseAtom fuel rest with
    | Except.ok (v, rest2) => Except.ok (pyNeg v, rest2)
    | Except.error e => Except.error e
  | fuel + 1, Tok.plus :: rest => parseAtom fuel rest
  | _ + 1, _ => Except.error "SyntaxError: invalid syntax"

/-- Product-level parse: an atom followed by a run of * and / operators. -/
def parseTerm (fuel : Nat) (ts : List Tok) : Except String (PyNum × List Tok) :=
  match fuel with
  | 0 => Except.error "SyntaxError: invalid syntax"
  | fuel + 1 =>
    match parseAtom fuel ts with
    | Except.ok (v, rest) => parseTermRest fuel v rest
    | Except.error e => Except.error e

/-- Left-associative run of * and / operators after a parsed atom. -/
def parseTermRest (fuel : Nat) (acc : PyNum) (ts : List Tok) : Except String (PyNum × List Tok) :=
  match fuel, ts with
  | 0, _ => Except.error "SyntaxError: invalid syntax"
  | fuel + 1, Tok.star :: rest =>
    match parseAtom fuel rest with
    | Except.ok (v, rest2) => parseTermRest fuel (pyMul acc v) rest2
    | Except.error e => Except.error e
  | fuel + 1, Tok.slash :: rest =>
    match parseAtom fuel rest with
    | Except.ok (v, rest2) =>
      match pyDiv acc v with
      | Except.ok w => parseTermRest fuel w rest2
      | Except.error e => Except.error e
    | Except.error e => Except.error e
  | _ + 1, _ => Except.ok (acc, ts)

/-- Sum-level parse: a term followed by a run of + and - operators. -/
def parseExpr (fuel : Nat) (ts : List Tok) : Except String (PyNum × List Tok) :=
  match fuel with
  | 0 => Except.error "SyntaxError: invalid syntax"
  | fuel + 1 =>
    match parseTerm fuel ts with
    | Except.ok (v, rest) => parseExprRest fuel v rest
    | Except.error e => Except.error e

/-- Left-associative run of + and - operators after a parsed term. -/
def parseExprRest (fuel : Nat) (acc : PyNum) (ts : List Tok) : Except String (PyNum × List Tok) :=
  match fuel, ts with
  | 0, _ => Except.error "SyntaxError: invalid syntax"
  | fuel + 1, Tok.plus :: rest =>
    match parseTerm fuel rest with
    | Except.ok (v, rest2) => parseExprRest fuel (pyAdd acc v) rest2
    | Except.error e => Except.error e
  | fuel + 1, Tok.minus :: rest =>
    match parseTerm fuel rest with
    | Except.ok (v, rest2) => parseExprRest fuel (pySub acc v) rest2
    | Except.error e => Except.error e
  | _ + 1, _ => Except.ok (acc, ts)

end

/-- Evaluation of an arithmetic expression string, embedding the behaviour
of Python eval on the arithmetic fragment the calculate tool is scoped to:
tokenize, parse the full token list, and demand no trailing tokens. -/
def pyEval (expr : String) : Except String PyNum :=
  match tokenize expr with
  | Except.error e => Except.error e
  | Except.ok ts =>
    match parseExpr (4 * ts.length + 8) ts with
    | Except.ok (v, []) => Except.ok v
    | Except.ok (_, _ :: _) => Except.error "SyntaxError: invalid syntax"
    | Except.error e => Except.error e

/-- Embedding of the calculate tool (src/airline.py lines 125-149):
str(eval(expr)) on success, and any evaluation failure is caught and
returned as a string prefixed with "Error: " (the Python code attaches the
formatted traceback text after that prefix). -/
def calculate (expr : String) : String :=
  match pyEval expr with
  | Except.ok v => PyNum.str v
  | Except.error tb => "Error: " ++ tb

/-- Seed mapping of city to ticket price (src/airline.py lines 56-61).
The prices are integer-valued; the REAL column of the prices table stores
them as floats, which the formatting in get_ticket_price accounts for. -/
def initial_ticket_prices : List (String × Nat) :=
  [("london", 799), ("paris", 899), ("tokyo", 1400), ("sydney", 2999)]

/-- The prices table: rows of (city, price), city being the primary key. -/
abbrev PricesTable := List (String × Nat)

/-- INSERT OR IGNORE INTO prices (city, price): the row is inserted unless
a row with the same primary key city already exists (src/airline.py
lines 73-77). -/
def insertOrIgnore (t : PricesTable) (city : String) (price : Nat) : PricesTable :=
  if t.any (fun r => r.1 == city) then t else t ++ [(city, price)]

/-- One run of the startup seeding loop (src/airline.py lines 64-79):
create the table if absent and insert-or-ignore every seed row in order. -/
def seedPrices (t : PricesTable) : PricesTable :=
  initial_ticket_prices.foldl (fun acc cp => insertOrIgnore acc cp.1 cp.2) t

/-- The table contents after seeding a fresh database. -/
def seededTable : PricesTable :=
  [("london", 799), ("paris", 899), ("tokyo", 1400), ("sydney", 2999)]

/-- SELECT price FROM prices WHERE city = ? followed by fetchone: the first
row matching the city, if any (src/airline.py lines 115-116). -/
def selectPrice (t : PricesTable) (city : String) : Option Nat :=
  (t.find? (fun r => r.1 == city)).map (fun r => r.2)

/-- Embedding of the get_ticket_price tool (src/airline.py lines 86-122).
The storage parameter stands for the sqlite connect/execute/fetchone
sequence on the normalised city name; the except branch of the Python code
is the error case, returning the formatted traceback behind an "Error: "
prefix.  On a fetched row the price comes back from the REAL column as a
float, so the f-string renders it through the Python float repr. -/
def get_ticket_price (storage : String → Except String (Option Nat)) (city : String) : String :=
  match storage (pyLower city) with
  | Except.error tb => "Error: " ++ tb
  | Except.ok (some price) => "$" ++ floatRepr (PyFloat.ofInt (price : Int))
  | Except.ok none => "Not found"

/-- The healthy storage layer: lookups against the seeded prices table,
never failing. -/
def seededStorage : String → Except String (Option Nat) :=
  fun c => Except.ok (selectPrice (seedPrices []) c)

end Airline

namespace Backend

/-- A single security issue of a report (src/backend/server.py lines
79-114); the CVSS score field is a float. -/
structure SecurityIssue where
  title : String
  description : String
  code : String
  fix : String
  cvss_score : PyFloat
  severity : String
deriving DecidableEq

/-- The structured report returned to the frontend (src/backend/server.py
lines 117-133): an executive summary plus the ordered list of issues. -/
structure SecurityReport where
  summary : String
  issues : List SecurityIssue
deriving DecidableEq

/-- Embedding of context.enhance_summary (src/backend/context.py lines
80-101): prefix the agent summary with the analysed code length. -/
def enhance_summary (code_length : Nat) (agent_summary : String) : String :=
  "Analyzed " ++ toString code_length ++ " characters of Python code. " ++ agent_summary

/-- Embedding of format_analysis_response (src/backend/server.py lines
251-274): a new report carrying the enhanced summary and the original
issues. -/
def format_analysis_response (code : String) (report : SecurityReport) : SecurityReport :=
  { summary := enhance_summary code.length report.summary, issues := report.issues }

/-- An HTTPException raised by the endpoint helpers: status code plus
detail message. -/
structure HTTPError where
  status : Nat
  detail : String
deriving DecidableEq

/-- The environment configuration the endpoint reads: the OPENAI_API_KEY
variable, absent (none) or set to a string. -/
structure Env where
  openai_api_key : Option String
deriving DecidableEq

/-- Python truthiness of an os.getenv result: None and the empty string
are falsy. -/
def pyTruthy : Option String → Bool
  | none => false
  | some s => !s.isEmpty

/-- Embedding of validate_request (src/backend/server.py lines 140-159):
a 400 HTTPException when the code is empty after stripping whitespace,
nothing otherwise. -/
def validate_request (code : String) : Option HTTPError :=
  if pyStrip code = "" then some { status := 400, detail := "No code provided for analysis" }
  else none

/-- Embedding of check_api_keys (src/backend/server.py lines 162-176):
a 500 HTTPException when OPENAI_API_KEY is unset or empty, nothing
otherwise. -/
def check_api_keys (env : Env) : Option HTTPError :=
  if pyTruthy env.openai_api_key then none
  else some { status := 500, detail := "OpenAI API key not configured" }

/-- Outcome of the analyze endpoint: an HTTP error response or a report. -/
inductive AnalyzeResult where
  | httpError : HTTPError → AnalyzeResult
  | ok : SecurityReport → AnalyzeResult
deriving DecidableEq

/-- Embedding of the analyze_code endpoint handler (src/backend/server.py
lines 281-319).  The delegated parameter stands for the awaited outcome of
run_security_analysis, the sole suspension point; it is only consumed
after validation and the credential check succeed.  The returned Bool
records whether run_security_analysis was invoked. -/
def analyze_code (env : Env) (code : String) (delegated : Except String SecurityReport) :
    AnalyzeResult × Bool :=
  match validate_request code with
  | some e => (AnalyzeResult.httpError e, false)
  | none =>
    match check_api_keys env with
    | some e => (AnalyzeResult.httpError e, false)
    | none =>
      match delegated with
      | Except.error msg =>
        (AnalyzeResult.httpError { status := 500, detail := "Analysis failed: " ++ msg }, true)
      | Except.ok report => (AnalyzeResult.ok (format_analysis_response code report), true)

end Backend

/-- A 42-character input code string used by the concrete instances. -/
def code42 : String := String.mk (List.replicate 42 'x')

/-- A delegated report with the summary the spec example uses and an empty
issue list. -/
def sampleReport : Backend.SecurityReport := { summary := "No issues found.", issues := [] }

/-- A delegated report with a non-empty issue list, used to observe the
issues being carried through verbatim. -/
def sampleReport2 : Backend.SecurityReport :=
  { summary := "Semgrep found 1 issue."
    issues := [{ title := "eval use"
                 description := "eval on untrusted input"
                 code := "eval(x)"
                 fix := "use ast.literal_eval"
                 cvss_score := { num := 91, den := 10 }
                 severity := "critical" }] }

/-- Claim C1, counterexample: with the spec example summary and a
42-character input, the produced summary is not the claimed string
"Analyzed 42 characters of code. No issues found." (the code writes
"characters of Python code"). -/
theorem C1_counterexample :
    (Backend.format_analysis_response code42 sampleReport).summary ≠
      "Analyzed 42 characters of code. No issues found." ∧
    code42.length = 42 ∧ sampleReport.summary = "No issues found." := by
  decide

/-- Claim C1, amended: for every delegated report with summary S and every
input code of length N, the final summary is exactly
"Analyzed N characters of Python code. " followed by S. -/
theorem C1_amended_thm (code : String) (report : Backend.SecurityReport) :
    (Backend.format_analysis_response code report).summary =
      "Analyzed " ++ toString code.length ++ " characters of Python code. " ++ report.summary :=
  rfl

/-- Claim C1, concrete instance of the amended statement: summary
"No issues found." and a 42-character input give exactly
"Analyzed 42 characters of Python code. No issues found.". -/
theorem C1_witness :
    (Backend.format_analysis_response code42 sampleReport).summary =
      "Analyzed 42 characters of Python code. No issues found." :=
  C1_amended_thm code42 sampleReport

/-- Claim C2: for every request whose code is empty or whitespace-only
(pyStrip code = ""), the analyze endpoint returns HTTP 400 with the
no-code detail, for every environment and every possible delegated
outcome, and run_security_analysis is never invoked (the Bool is false). -/
theorem C2_thm (env : Backend.Env) (code : String)
    (delegated : Except String Backend.SecurityReport) (h : pyStrip code = "") :
    Backend.analyze_code env code delegated =
      (Backend.AnalyzeResult.httpError { status := 400, detail := "No code provided for analysis" },
        false) := by
  simp [Backend.analyze_code, Backend.validate_request, h]

/-- Claim C2, witness: a whitespace-only request with a configured key
returns 400 without invoking the delegated call. -/
theorem C2_witness :
    Backend.analyze_code { openai_api_key := some "sk-test" } "   " (Except.error "ignored") =
      (Backend.AnalyzeResult.httpError { status := 400, detail := "No code provided for analysis" },
        false) :=
  C2_thm { openai_api_key := some "sk-test" } "   " (Except.error "ignored") rfl

/-- Claim C3: for every request with non-empty code, when OPENAI_API_KEY is
absent the analyze endpoint returns HTTP 500 with the missing-configuration
detail, for every possible delegated outcome, and the scanner connection
(run_security_analysis, which opens create_semgrep_server) is never
attempted (the Bool is false). -/
theorem C3_thm (code : String) (delegated : Except String Backend.SecurityReport)
    (h : pyStrip code ≠ "") :
    Backend.analyze_code { openai_api_key := none } code delegated =
      (Backend.AnalyzeResult.httpError { status := 500, detail := "OpenAI API key not configured" },
        false) := by
  simp [Backend.analyze_code, Backend.validate_request, Backend.check_api_keys,
    Backend.pyTruthy, h]

/-- Claim C3, witness: a non-empty request with no key configured returns
500 without attempting the scanner connection. -/
theorem C3_witness :
    Backend.analyze_code { openai_api_key := none } "print(1)" (Except.error "ignored") =
      (Backend.AnalyzeResult.httpError { status := 500, detail := "OpenAI API key not configured" },
        false) :=
  C3_thm "print(1)" (Except.error "ignored") (by decide)

/-- Claim C4: the price tool always returns a string (it is total); for
every city whose lower-cased name differs from all four seeded keys the
seeded lookup returns the sentinel "Not found", and on any storage failure
the tool returns the captured message behind the "Error: " prefix instead
of propagating the failure. -/
theorem C4_thm (city : String)
    (h1 : "london" ≠ pyLower city) (h2 : "paris" ≠ pyLower city)
    (h3 : "tokyo" ≠ pyLower city) (h4 : "sydney" ≠ pyLower city) :
    Airline.get_ticket_price Airline.seededStorage city = "Not found" ∧
    ∀ tb : String, Airline.get_ticket_price (fun _ => Except.error tb) city = "Error: " ++ tb := by
  constructor
  · have e1 : (("london" : String) == pyLower city) = false := beq_eq_false_iff_ne.mpr h1
    have e2 : (("paris" : String) == pyLower city) = false := beq_eq_false_iff_ne.mpr h2
    have e3 : (("tokyo" : String) == pyLower city) = false := beq_eq_false_iff_ne.mpr h3
    have e4 : (("sydney" : String) == pyLower city) = false := beq_eq_false_iff_ne.mpr h4
    have hseed : Airline.seedPrices [] = Airline.seededTable := rfl
    simp [Airline.get_ticket_price, Airline.seededStorage, hseed, Airline.seededTable,
      Airline.selectPrice, List.find?, e1, e2, e3, e4]
  · intro tb
    rfl

/-- Claim C4, witness: the city "atlantis" is absent from the seed set and
yields "Not found", and a storage failure with message "disk error" yields
the corresponding error string. -/
theorem C4_witness :
    Airline.get_ticket_price Airline.seededStorage "atlantis" = "Not found" ∧
    Airline.get_ticket_price (fun _ => Except.error "disk error") "atlantis" =
      "Error: " ++ "disk error" := by
  have h := C4_thm "atlantis" (by decide) (by decide) (by decide) (by decide)
  exact ⟨h.1, h.2 "disk error"⟩

/-- Claim C5, evaluation at the failing input: the seeded row for london
holds 799, yet the tool renders every casing of "london" as "$799.0" (the
REAL column hands the price back as a float), not the claimed "$799". -/
theorem C5_eval :
    Airline.selectPrice (Airline.seedPrices []) "london" = some 799 ∧
    Airline.get_ticket_price Airline.seededStorage "london" = "$799.0" ∧
    Airline.get_ticket_price Airline.seededStorage "London" = "$799.0" ∧
    Airline.get_ticket_price Airline.seededStorage "LONDON" = "$799.0" ∧
    Airline.get_ticket_price Airline.seededStorage "london" ≠ "$799" := by
  decide

/-- Claim C6: seeding a fresh database any positive number of times leaves
the prices table holding exactly the four seeded rows, one row per city
(the key column is duplicate-free), and one further seeding run is a
no-op. -/
theorem C6_thm : ∀ n : Nat,
    Airline.seedPrices^[n + 1] [] = Airline.seededTable ∧
    Airline.seedPrices (Airline.seedPrices^[n + 1] []) = Airline.seedPrices^[n + 1] [] ∧
    (Airline.seededTable.map Prod.fst).Nodup := by
  intro n
  have base : Airline.seedPrices [] = Airline.seededTable := rfl
  have step : Airline.seedPrices Airline.seededTable = Airline.seededTable := by decide
  have main : Airline.seedPrices^[n + 1] [] = Airline.seededTable := by
    induction n with
    | zero => rw [Function.iterate_one]; exact base
    | succ k ih => rw [Function.iterate_succ_apply', ih, step]
  refine ⟨main, ?_, by decide⟩
  rw [main, step]

/-- Claim C6, witness: three seeding runs of a fresh database leave
exactly the four seeded rows. -/
theorem C6_witness :
    Airline.seedPrices^[3] [] = Airline.seededTable :=
  (C6_thm 2).1

/-- Claim C7: the calculate tool returns "719.1" on the input
"799 * 0.9", and every evaluation failure is caught and returned as an
"Error: " string rather than propagated. -/
theorem C7_thm :
    Airline.calculate "799 * 0.9" = "719.1" ∧
    ∀ expr tb, Airline.pyEval expr = Except.error tb →
      Airline.calculate expr = "Error: " ++ tb := by
  refine ⟨by decide, ?_⟩
  intro expr tb h
  simp [Airline.calculate, h]

/-- Claim C7, witness: the malformed expression "799 *" fails to parse and
the tool returns the corresponding error string. -/
theorem C7_witness :
    Airline.calculate "799 *" = "Error: " ++ "SyntaxError: invalid syntax" :=
  C7_thm.2 "799 *" "SyntaxError: invalid syntax" rfl

/-- Claim C8: for every input code and delegated report, the formatted
response keeps the issues list verbatim and is exactly the record whose
summary is the enhanced summary and whose issues are the original ones, so
only the summary field changes. -/
theorem C8_thm (code : String) (report : Backend.SecurityReport) :
    (Backend.format_analysis_response code report).issues = report.issues ∧
    Backend.format_analysis_response code report =
      { summary := Backend.enhance_summary code.length report.summary,
        issues := report.issues } :=
  ⟨rfl, rfl⟩

/-- Claim C8, witness: a report with a non-empty issue list keeps it
verbatim through formatting. -/
theorem C8_witness :
    (Backend.format_analysis_response code42 sampleReport2).issues = sampleReport2.issues :=
  (C8_thm code42 sampleReport2).1

/-- Claim C9, counterexample: applying the formatting transformation to
its own output does not yield the same result — the size prefix is
prepended a second time — so the transformation is not idempotent. -/
theorem C9_counterexample :
    Backend.format_analysis_response "ab" (Backend.format_analysis_response "ab" sampleReport) ≠
      Backend.format_analysis_response "ab" sampleReport := by
  decide

/-- Claim C9, amended: the transformation is pure (two runs on the same
pair of inputs yield equal outputs), but it is not idempotent: applying it
to its own output enhances the already-enhanced summary once more, while
the issues still pass through verbatim. -/
theorem C9_amended_thm (code : String) (report : Backend.SecurityReport) :
    Backend.format_analysis_response code report = Backend.format_analysis_response code report ∧
    (Backend.format_analysis_response code (Backend.format_analysis_response code report)).summary =
      Backend.enhance_summary code.length
        (Backend.enhance_summary code.length report.summary) ∧
    (Backend.format_analysis_response code (Backend.format_analysis_response code report)).issues =
      report.issues :=
  ⟨rfl, rfl, rfl⟩

/-- Claim C9, witness: the double application at the concrete sample shows
the doubled prefix explicitly. -/
theorem C9_witness :
    (Backend.format_analysis_response "ab"
        (Backend.format_analysis_response "ab" sampleReport)).summary =
      "Analyzed 2 characters of Python code. Analyzed 2 characters of Python code. No issues found." :=
  (C9_amended_thm "ab" sampleReport).2.1

/-- Claim C10: validation precedes the credential check — a request whose
code is empty or whitespace-only returns HTTP 400 even when OPENAI_API_KEY
is also missing, for every possible delegated outcome. -/
theorem C10_thm (code : String) (delegated : Except String Backend.SecurityReport)
    (h : pyStrip code = "") :
    Backend.analyze_code { openai_api_key := none } code delegated =
      (Backend.AnalyzeResult.httpError { status := 400, detail := "No code provided for analysis" },
        false) := by
  simp [Backend.analyze_code, Backend.validate_request, h]

/-- Claim C10, witness: a whitespace-only request with the key missing
still returns 400, not 500. -/
theorem C10_witness :
    Backend.analyze_code { openai_api_key := none } " \t " (Except.error "ignored") =
      (Backend.AnalyzeResult.httpError { status := 400, detail := "No code provided for analysis" },
        false) :=
  C10_thm " \t " (Except.error "ignored") rfl
